import Mathlib

/-!
# Verification of the homework-status poll bot (src/homework.py)

Shallow embedding of the core logic of the bot: the JSON-like values it
manipulates, the Python exceptions it raises, the four stage functions
(check_tokens, send_message, get_api_answer, check_response, parse_status)
and one iteration of the poll loop in main.  External effects (the HTTP
request, the Telegram delivery call) are passed in as explicit outcome
values; everything else is translated line by line from the source.
-/

namespace HomeworkBot

/-- JSON-like values as manipulated by the Python code: the decoded HTTP
body, dictionary entries, the timestamp variable (an int initially, but
`response.get` can store any value into it).  `none` is the Python None. -/
inductive Value where
  | str (s : String)
  | int (n : Int)
  | bool (b : Bool)
  | list (xs : List Value)
  | dict (kvs : List (String × Value))
  | none
deriving Repr

/-- First-match association lookup on the entries of a dictionary
(Python dict keys are unique, so first match is the match). -/
def lookup : List (String × Value) → String → Option Value
  | [], _ => Option.none
  | (k, v) :: rest, key => if k = key then some v else lookup rest key

/-- Python str() of a value, as used by f-string interpolation.
Only the string case is exercised by the messages of the program. -/
def Value.pyStr : Value → String
  | .str s => s
  | .int n => toString n
  | .bool b => if b then "True" else "False"
  | .list _ => "<list>"
  | .dict _ => "<dict>"
  | .none => "None"

/-- Models `d.get(key, default)` (line 139 of the source); only ever called on a
dict in the program (the response has passed check_response). -/
def Value.get (v : Value) (key : String) (default : Value) : Value :=
  match v with
  | .dict kvs => (lookup kvs key).getD default
  | _ => default

/-- The Python exceptions the program raises, with the message text.
`pyStr` below renders them the way f-string interpolation does. -/
inductive PyError where
  | typeError (msg : String)
  | keyError (msg : String)
  | valueError (msg : String)
  | runtimeError (msg : String)
deriving Repr, DecidableEq

/-- The single-quote character, used by the Python repr of a string. -/
def squote : String := String.singleton (Char.ofNat 39)

/-- str() of an exception: the str of a KeyError renders as repr of its message
(single quotes around it); the others return the message verbatim. -/
def PyError.pyStr : PyError → String
  | .typeError m => m
  | .keyError m => squote ++ m ++ squote
  | .valueError m => m
  | .runtimeError m => m

/-- The ShapeError kind of the spec: in the code, the TypeError and KeyError
raises of check_response and parse_status. -/
def PyError.isShapeError : PyError → Bool
  | .typeError _ => true
  | .keyError _ => true
  | _ => false

/-- The UnknownStatusError kind of the spec: in the code, the ValueError raise
of parse_status. -/
def PyError.isUnknownStatusError : PyError → Bool
  | .valueError _ => true
  | _ => false

/-- RETRY_PERIOD constant (line 17). -/
def RETRY_PERIOD : Nat := 600

/-- ENDPOINT constant (line 18). -/
def ENDPOINT : String := "https://practicum.yandex.ru/api/user_api/homework_statuses/"

/-- HOMEWORK_VERDICTS (lines 21-25). -/
def HOMEWORK_VERDICTS : List (String × String) :=
  [("approved", "Работа проверена: ревьюеру всё понравилось. Ура!"),
   ("reviewing", "Работа взята на проверку ревьюером."),
   ("rejected", "Работа проверена: у ревьюера есть замечания.")]

/-- First-match lookup in HOMEWORK_VERDICTS (dict indexing / membership). -/
def verdictOf : List (String × String) → String → Option String
  | [], _ => Option.none
  | (k, v) :: rest, key => if k = key then some v else verdictOf rest key

/-- The three environment credentials (lines 13-15): each is the string
from the environment, or Option.none when the variable is unset. -/
structure TokenEnv where
  PRACTICUM_TOKEN : Option String
  TELEGRAM_TOKEN : Option String
  TELEGRAM_CHAT_ID : Option String

/-- Python truthiness of an optional string: None and the empty string
are falsy, every other string is truthy. -/
def truthy : Option String → Bool
  | Option.none => false
  | some s => s ≠ ""

/-- check_tokens (lines 28-42): collects the names of falsy credentials;
returns False if any is missing, True otherwise. -/
def check_tokens (env : TokenEnv) : Bool :=
  let tokens := [("PRACTICUM_TOKEN", env.PRACTICUM_TOKEN),
                 ("TELEGRAM_TOKEN", env.TELEGRAM_TOKEN),
                 ("TELEGRAM_CHAT_ID", env.TELEGRAM_CHAT_ID)]
  let missing_tokens := (tokens.filter (fun p => !truthy p.2)).map (fun p => p.1)
  if missing_tokens.isEmpty then true else false

/-- What the startup of main (lines 123-124) does with the credentials:
exit before the loop, or enter the loop. -/
inductive StartupResult where
  | exited (msg : String)
  | entersLoop
deriving Repr, DecidableEq

/-- Lines 123-124 of main: sys.exit before the loop when check_tokens
returns False. -/
def main_startup (env : TokenEnv) : StartupResult :=
  if check_tokens env then StartupResult.entersLoop
  else StartupResult.exited "Отсутствуют обязательные переменные окружения"

/-- Outcome of the one Telegram delivery call inside send_message:
success, a telebot ApiException, or a requests.RequestException. -/
inductive SendOutcome where
  | success
  | apiException (err : String)
  | requestException (err : String)
deriving Repr, DecidableEq

/-- Severity of a log line. -/
inductive LogLevel where
  | debug
  | error
  | critical
deriving Repr, DecidableEq

/-- Observable result of one send_message call: `ret` is what the Python
function returns to its caller (or the exception it lets escape);
`delivered` records whether the underlying bot call succeeded; `log` is
what it logs. -/
structure SendMessageResult where
  ret : Except PyError Value
  delivered : Bool
  log : List (LogLevel × String)
deriving Repr

/-- send_message (lines 45-55): one bot.send_message call; ApiException
and RequestException are caught and logged; the function has no return
statement, so it returns None on every path. -/
def send_message (message : String) (outcome : SendOutcome) : SendMessageResult :=
  match outcome with
  | SendOutcome.success =>
      { ret := Except.ok Value.none,
        delivered := true,
        log := [(LogLevel.debug, "Сообщение в Telegram отправлено: " ++ message)] }
  | SendOutcome.apiException err =>
      { ret := Except.ok Value.none,
        delivered := false,
        log := [(LogLevel.error, "Сбой при отправке сообщения в Telegram: " ++ err)] }
  | SendOutcome.requestException err =>
      { ret := Except.ok Value.none,
        delivered := false,
        log := [(LogLevel.error, "Ошибка сети при отправке сообщения в Telegram: " ++ err)] }

/-- Outcome of the one requests.get call inside get_api_answer: a
network-level failure (requests.RequestException), or an HTTP response
with its status code and decoded JSON body. -/
inductive HttpOutcome where
  | netFailure (err : String)
  | response (status_code : Nat) (body : Value)
deriving Repr

/-- The query parameters built on line 60: from_date carries the current
timestamp value, whatever it is. -/
def apiRequestParams (timestamp : Value) : List (String × Value) :=
  [("from_date", timestamp)]

/-- get_api_answer (lines 58-75): RequestException becomes a RuntimeError;
any status code other than 200 becomes a RuntimeError; otherwise the
decoded body is returned untouched. -/
def get_api_answer (timestamp : Value) (outcome : HttpOutcome) : Except PyError Value :=
  match outcome with
  | HttpOutcome.netFailure err =>
      Except.error (PyError.runtimeError ("Ошибка при запросе к API: " ++ err))
  | HttpOutcome.response status_code body =>
      if status_code ≠ 200 then
        Except.error (PyError.runtimeError
          ("Эндпоинт " ++ ENDPOINT ++ " вернул код " ++ toString status_code))
      else
        Except.ok body

/-- check_response (lines 78-89): the response must be a dict, must have
a homeworks key, and its value must be a list; the list is returned
unchanged. -/
def check_response (response : Value) : Except PyError (List Value) :=
  match response with
  | Value.dict kvs =>
      match lookup kvs "homeworks" with
      | Option.none => Except.error (PyError.keyError "Ключ \"homeworks\" отсутствует в ответе API")
      | some (Value.list hws) => Except.ok hws
      | some _ => Except.error (PyError.typeError "Ответ API по ключу \"homeworks\" не является списком")
  | _ => Except.error (PyError.typeError "Ответ API не является словарем")

/-- The membership test `status not in HOMEWORK_VERDICTS` of line 105,
as Python evaluates it (the negation dropped: ok true means the status
IS a catalog key).  The dict lookup hashes the probe first, so a list-
or dict-valued status is unhashable and makes the test itself raise
TypeError; every other value is hashable, and is a member exactly when
it is a string equal to one of the keys. -/
def statusMember : Value → Except PyError Bool
  | Value.str s => Except.ok (verdictOf HOMEWORK_VERDICTS s).isSome
  | Value.int _ => Except.ok false
  | Value.bool _ => Except.ok false
  | Value.none => Except.ok false
  | Value.list _ =>
      Except.error (PyError.typeError ("unhashable type: " ++ squote ++ "list" ++ squote))
  | Value.dict _ =>
      Except.error (PyError.typeError ("unhashable type: " ++ squote ++ "dict" ++ squote))

/-- parse_status (lines 92-109): shape checks in source order, then the
line-105 membership test — which itself raises TypeError for an
unhashable (list or dict) status, and otherwise leads to the line-107
ValueError for a non-member — then the verdict lookup and the f-string
on line 109. -/
def parse_status (homework : Value) : Except PyError String :=
  match homework with
  | Value.dict kvs =>
      match lookup kvs "homework_name" with
      | Option.none => Except.error (PyError.keyError "Ключ \"homework_name\" отсутствует в ответе API")
      | some homework_name =>
          match lookup kvs "status" with
          | Option.none => Except.error (PyError.keyError "Ключ \"status\" отсутствует в ответе API")
          | some status =>
              match status with
              | Value.str s =>
                  match verdictOf HOMEWORK_VERDICTS s with
                  | some verdict =>
                      Except.ok ("Изменился статус проверки работы \"" ++ homework_name.pyStr
                        ++ "\". " ++ verdict)
                  | Option.none =>
                      Except.error (PyError.valueError
                        ("Неизвестный статус домашней работы: " ++ status.pyStr))
              | Value.list _ =>
                  Except.error (PyError.typeError
                    ("unhashable type: " ++ squote ++ "list" ++ squote))
              | Value.dict _ =>
                  Except.error (PyError.typeError
                    ("unhashable type: " ++ squote ++ "dict" ++ squote))
              | Value.int _ =>
                  Except.error (PyError.valueError
                    ("Неизвестный статус домашней работы: " ++ status.pyStr))
              | Value.bool _ =>
                  Except.error (PyError.valueError
                    ("Неизвестный статус домашней работы: " ++ status.pyStr))
              | Value.none =>
                  Except.error (PyError.valueError
                    ("Неизвестный статус домашней работы: " ++ status.pyStr))
  | _ => Except.error (PyError.typeError "Домашняя работа не является словарем")

/-- Session state of main (lines 127-128): the timestamp passed to the
next fetch and the last message handed to send_message (None before the
first send). -/
structure PollState where
  timestamp : Value
  last_message : Option String

/-- External outcomes one loop iteration can observe: the result of its
one requests.get call and the result of its at most one bot.send_message
call. -/
structure IterEnv where
  fetch : HttpOutcome
  sendOutcome : SendOutcome

/-- What the try-block of one iteration (lines 132-141) decides before
any state update: an empty homeworks list (debug log only), a candidate
message equal to last_message (no send), or a send attempt together with
the value response.get assigns to timestamp on line 139. -/
inductive TryOutcome where
  | noNew
  | duplicate (message : String)
  | notified (message : String) (new_timestamp : Value)
deriving Repr

/-- The try-block of one iteration of main (lines 132-141), stopping at
the first raised exception, exactly in source order: fetch, validate,
then, when homeworks is non-empty, format its first record and compare
with last_message. -/
def try_body (st : PollState) (env : IterEnv) : Except PyError TryOutcome :=
  match get_api_answer st.timestamp env.fetch with
  | Except.error e => Except.error e
  | Except.ok response =>
      match check_response response with
      | Except.error e => Except.error e
      | Except.ok homeworks =>
          match homeworks with
          | [] => Except.ok TryOutcome.noNew
          | hw :: _ =>
              match parse_status hw with
              | Except.error e => Except.error e
              | Except.ok message =>
                  if st.last_message = some message then
                    Except.ok (TryOutcome.duplicate message)
                  else
                    Except.ok (TryOutcome.notified message
                      (response.get "current_date" st.timestamp))

/-- Observable result of one loop iteration: the state at the bottom of
the loop body, the messages handed to send_message (in order), and the
messages the delivery layer accepted. -/
structure IterResult where
  state : PollState
  sent : List String
  delivered : List String

/-- The f-string on line 143: the user-facing failure message built from
the caught exception. -/
def failureMessage (e : PyError) : String :=
  "Сбой в работе программы: " ++ e.pyStr

/-- One full iteration of the while-loop body (lines 130-153).  On a
raised exception the except-branch (lines 142-152) builds the failure
message, dedups it against last_message and, when it differs, attempts
one send and updates last_message (send_message never raises, so the
inner except on lines 149-152 is dead); timestamp is never touched
there.  On the success path the state updates of lines 138-139 happen
after the send attempt, whatever its outcome. -/
def main_iteration (st : PollState) (env : IterEnv) : IterResult :=
  match try_body st env with
  | Except.ok TryOutcome.noNew =>
      { state := st, sent := [], delivered := [] }
  | Except.ok (TryOutcome.duplicate _) =>
      { state := st, sent := [], delivered := [] }
  | Except.ok (TryOutcome.notified message new_timestamp) =>
      let s := send_message message env.sendOutcome
      { state := { timestamp := new_timestamp, last_message := some message },
        sent := [message],
        delivered := if s.delivered then [message] else [] }
  | Except.error e =>
      let message := failureMessage e
      if st.last_message = some message then
        { state := st, sent := [], delivered := [] }
      else
        let s := send_message message env.sendOutcome
        { state := { timestamp := st.timestamp, last_message := some message },
          sent := [message],
          delivered := if s.delivered then [message] else [] }

/-- The while-loop (line 130) run over a finite schedule of external
outcomes, one IterEnv per iteration (the real loop never terminates;
time.sleep(RETRY_PERIOD) separates consecutive iterations).  Returns the
state after the schedule and every message handed to send_message. -/
def main_loop (st : PollState) : List IterEnv → PollState × List String
  | [] => (st, [])
  | env :: rest =>
      let r := main_iteration st env
      let (st', sent') := main_loop r.state rest
      (st', r.sent ++ sent')

/-- Scenario A homework record from the examples in the spec. -/
def sampleRecord : Value :=
  Value.dict [("homework_name", Value.str "diff1"), ("status", Value.str "approved")]

/-- Scenario A response body from the examples in the spec. -/
def sampleResponse : Value :=
  Value.dict [("homeworks", Value.list [sampleRecord]), ("current_date", Value.int 1700000100)]

/-- A response whose current_date holds a string: nothing in the code
ever checks its type. -/
def oddResponse : Value :=
  Value.dict [("homeworks", Value.list [sampleRecord]),
              ("current_date", Value.str "not-a-number")]

/-- The message parse_status renders for sampleRecord. -/
def sampleMessage : String :=
  "Изменился статус проверки работы \"diff1\". Работа проверена: ревьюеру всё понравилось. Ура!"

/-- The message parse_status renders for the same record with status
rejected: a realistic previously-delivered message. -/
def sampleRejectedMessage : String :=
  "Изменился статус проверки работы \"diff1\". Работа проверена: у ревьюера есть замечания."

section StageLemmas

/-- Fetch failure propagates out of the try-block. -/
theorem try_body_eq_fetch_error (st : PollState) (env : IterEnv) (e : PyError)
    (h : get_api_answer st.timestamp env.fetch = Except.error e) :
    try_body st env = Except.error e := by
  simp [try_body, h]

/-- Validation failure propagates out of the try-block. -/
theorem try_body_eq_check_error (st : PollState) (env : IterEnv) (response : Value) (e : PyError)
    (h1 : get_api_answer st.timestamp env.fetch = Except.ok response)
    (h2 : check_response response = Except.error e) :
    try_body st env = Except.error e := by
  simp [try_body, h1, h2]

/-- Formatting failure on the first record propagates out of the try-block. -/
theorem try_body_eq_parse_error (st : PollState) (env : IterEnv) (response hw : Value)
    (rest : List Value) (e : PyError)
    (h1 : get_api_answer st.timestamp env.fetch = Except.ok response)
    (h2 : check_response response = Except.ok (hw :: rest))
    (h3 : parse_status hw = Except.error e) :
    try_body st env = Except.error e := by
  simp [try_body, h1, h2, h3]

/-- An empty homeworks list ends the try-block with no candidate message. -/
theorem try_body_eq_noNew (st : PollState) (env : IterEnv) (response : Value)
    (h1 : get_api_answer st.timestamp env.fetch = Except.ok response)
    (h2 : check_response response = Except.ok []) :
    try_body st env = Except.ok TryOutcome.noNew := by
  simp [try_body, h1, h2]

/-- A candidate equal to last_message ends the try-block as a duplicate. -/
theorem try_body_eq_duplicate (st : PollState) (env : IterEnv) (response hw : Value)
    (rest : List Value) (message : String)
    (h1 : get_api_answer st.timestamp env.fetch = Except.ok response)
    (h2 : check_response response = Except.ok (hw :: rest))
    (h3 : parse_status hw = Except.ok message)
    (h4 : st.last_message = some message) :
    try_body st env = Except.ok (TryOutcome.duplicate message) := by
  simp [try_body, h1, h2, h3, h4]

/-- A fresh candidate ends the try-block with a send attempt and the
line-139 timestamp value. -/
theorem try_body_eq_notified (st : PollState) (env : IterEnv) (response hw : Value)
    (rest : List Value) (message : String)
    (h1 : get_api_answer st.timestamp env.fetch = Except.ok response)
    (h2 : check_response response = Except.ok (hw :: rest))
    (h3 : parse_status hw = Except.ok message)
    (h4 : st.last_message ≠ some message) :
    try_body st env =
      Except.ok (TryOutcome.notified message (response.get "current_date" st.timestamp)) := by
  simp [try_body, h1, h2, h3, h4]

/-- A send attempt happens only for a candidate differing from
last_message: inversion of the notified outcome. -/
theorem try_body_notified_ne (st : PollState) (env : IterEnv) (m : String) (ts : Value)
    (h : try_body st env = Except.ok (TryOutcome.notified m ts)) :
    st.last_message ≠ some m := by
  unfold try_body at h
  cases hg : get_api_answer st.timestamp env.fetch with
  | error e => simp [hg] at h
  | ok response =>
    cases hc : check_response response with
    | error e => simp [hg, hc] at h
    | ok homeworks =>
      cases homeworks with
      | nil => simp [hg, hc] at h
      | cons hw rest =>
        cases hp : parse_status hw with
        | error e => simp [hg, hc, hp] at h
        | ok message =>
          by_cases hl : st.last_message = some message
          · simp [hg, hc, hp, hl] at h
          · simp [hg, hc, hp, hl] at h
            obtain ⟨h1, _⟩ := h
            subst h1
            exact hl

/-- The iteration in the except-branch, written out (lines 142-152). -/
theorem main_iteration_error (st : PollState) (env : IterEnv) (e : PyError)
    (h : try_body st env = Except.error e) :
    main_iteration st env =
      (if st.last_message = some (failureMessage e) then
        { state := st, sent := [], delivered := [] }
      else
        { state := { timestamp := st.timestamp, last_message := some (failureMessage e) },
          sent := [failureMessage e],
          delivered := if (send_message (failureMessage e) env.sendOutcome).delivered
                       then [failureMessage e] else [] }) := by
  unfold main_iteration
  rw [h]

/-- The iteration on the fresh-candidate path, written out (lines 134-139). -/
theorem main_iteration_notified (st : PollState) (env : IterEnv) (response hw : Value)
    (rest : List Value) (message : String)
    (h1 : get_api_answer st.timestamp env.fetch = Except.ok response)
    (h2 : check_response response = Except.ok (hw :: rest))
    (h3 : parse_status hw = Except.ok message)
    (h4 : st.last_message ≠ some message) :
    main_iteration st env =
      { state := { timestamp := response.get "current_date" st.timestamp,
                   last_message := some message },
        sent := [message],
        delivered := if (send_message message env.sendOutcome).delivered
                     then [message] else [] } := by
  unfold main_iteration
  rw [try_body_eq_notified st env response hw rest message h1 h2 h3 h4]

/-- Every iteration either attempts no send and keeps the whole state, or
attempts exactly one send of a message differing from last_message and
stores that message into last_message. -/
theorem main_iteration_sent_spec (st : PollState) (env : IterEnv) :
    ((main_iteration st env).sent = [] ∧
      (main_iteration st env).state.last_message = st.last_message ∧
      (main_iteration st env).state.timestamp = st.timestamp) ∨
    (∃ m, (main_iteration st env).sent = [m] ∧ st.last_message ≠ some m ∧
      (main_iteration st env).state.last_message = some m) := by
  unfold main_iteration
  cases h : try_body st env with
  | ok o =>
    cases o with
    | noNew => exact Or.inl ⟨rfl, rfl, rfl⟩
    | duplicate m => exact Or.inl ⟨rfl, rfl, rfl⟩
    | notified m ts =>
      exact Or.inr ⟨m, rfl, try_body_notified_ne st env m ts h, rfl⟩
  | error e =>
    by_cases hl : st.last_message = some (failureMessage e)
    · exact Or.inl (by simp [hl])
    · exact Or.inr ⟨failureMessage e, by simp [hl], hl, by simp [hl]⟩

/-- A singleton list holds any message at most once. -/
theorem count_single_le_one (m a : String) : ([a].count m) ≤ 1 :=
  List.nodup_iff_count_le_one.1 (by simp) m

/-- Two distinct messages in a row hold any message at most once. -/
theorem count_pair_le_one (m a b : String) (hne : a ≠ b) :
    (([a] ++ [b]).count m) ≤ 1 :=
  List.nodup_iff_count_le_one.1 (by simp [hne]) m

/-- One unfolding step of the loop: the iteration runs to completion and
the loop continues with the rest of the schedule. -/
theorem main_loop_cons (st : PollState) (env : IterEnv) (rest : List IterEnv) :
    main_loop st (env :: rest) =
      ((main_loop (main_iteration st env).state rest).1,
        (main_iteration st env).sent ++ (main_loop (main_iteration st env).state rest).2) := by
  simp [main_loop]

end StageLemmas

/-- C5: for every key-value record containing homework_name (a string)
and a status belonging to the verdict catalog, parse_status succeeds and
returns exactly the pattern of line 109 with the catalog verdict for
that status; the hypothesis on verdictOf ranges over exactly the three
known status codes. -/
theorem C5_parse_status_success (kvs : List (String × Value)) (name s v : String)
    (h1 : lookup kvs "homework_name" = some (Value.str name))
    (h2 : lookup kvs "status" = some (Value.str s))
    (h3 : verdictOf HOMEWORK_VERDICTS s = some v) :
    parse_status (Value.dict kvs) =
      Except.ok ("Изменился статус проверки работы \"" ++ name ++ "\". " ++ v) := by
  simp [parse_status, h1, h2, h3, Value.pyStr]

/-- C5 witness: Scenario A record renders the approved message. -/
theorem C5_witness : parse_status sampleRecord = Except.ok sampleMessage := by
  have h := C5_parse_status_success
    [("homework_name", Value.str "diff1"), ("status", Value.str "approved")]
    "diff1" "approved" "Работа проверена: ревьюеру всё понравилось. Ура!" rfl rfl rfl
  exact h

/-- C6 counterexample: a record whose status is a list is not one of the
three known statuses, yet parse_status fails with the TypeError raised
by hashing the probe of the line-105 membership test — a shape-error
kind, not the unknown-status kind the claim requires for every
out-of-catalog status. -/
theorem C6_counterexample :
    parse_status (Value.dict [("homework_name", Value.str "hw"), ("status", Value.list [])]) =
      Except.error (PyError.typeError ("unhashable type: " ++ squote ++ "list" ++ squote)) ∧
    (PyError.typeError ("unhashable type: " ++ squote ++ "list"
      ++ squote)).isUnknownStatusError = false :=
  ⟨rfl, rfl⟩

/-- C6 amended: a record missing homework_name or status fails with a
shape-error kind (a KeyError); a record whose status is hashable (a
string, int, bool or None) and outside the catalog fails with the
unknown-status kind (the line-107 ValueError); a record whose status is
unhashable (a list or dict) fails with the TypeError raised by the
line-105 membership test itself — a shape-error kind; and in an
iteration whose first record fails to parse, every message handed to
the notifier is the failure message of the loop, so no status
notification for the record is ever attempted. -/
theorem C6_parse_status_failures (st : PollState) (env : IterEnv) (kvs : List (String × Value)) :
    (lookup kvs "homework_name" = Option.none →
      ∃ e, parse_status (Value.dict kvs) = Except.error e ∧ e.isShapeError = true) ∧
    (∀ nv, lookup kvs "homework_name" = some nv → lookup kvs "status" = Option.none →
      ∃ e, parse_status (Value.dict kvs) = Except.error e ∧ e.isShapeError = true) ∧
    (∀ nv sv, lookup kvs "homework_name" = some nv → lookup kvs "status" = some sv →
      statusMember sv = Except.ok false →
      ∃ e, parse_status (Value.dict kvs) = Except.error e ∧ e.isUnknownStatusError = true) ∧
    (∀ nv sv e, lookup kvs "homework_name" = some nv → lookup kvs "status" = some sv →
      statusMember sv = Except.error e →
      parse_status (Value.dict kvs) = Except.error e ∧ e.isShapeError = true) ∧
    (∀ response hw rest e, get_api_answer st.timestamp env.fetch = Except.ok response →
      check_response response = Except.ok (hw :: rest) → parse_status hw = Except.error e →
      ∀ m ∈ (main_iteration st env).sent, m = failureMessage e) := by
  refine ⟨fun h => ⟨PyError.keyError "Ключ \"homework_name\" отсутствует в ответе API",
            by simp [parse_status, h], rfl⟩,
          fun nv h1 h2 => ⟨PyError.keyError "Ключ \"status\" отсутствует в ответе API",
            by simp [parse_status, h1, h2], rfl⟩,
          fun nv sv h1 h2 h3 => ?_,
          fun nv sv e h1 h2 h3 => ?_,
          fun response hw rest e h1 h2 h3 m hm => ?_⟩
  · cases sv with
    | str s =>
      cases hv : verdictOf HOMEWORK_VERDICTS s with
      | none =>
        exact ⟨PyError.valueError ("Неизвестный статус домашней работы: " ++ (Value.str s).pyStr),
          by simp [parse_status, h1, h2, hv], rfl⟩
      | some v => simp [statusMember, hv] at h3
    | int n =>
      exact ⟨PyError.valueError ("Неизвестный статус домашней работы: " ++ (Value.int n).pyStr),
        by simp [parse_status, h1, h2], rfl⟩
    | bool b =>
      exact ⟨PyError.valueError ("Неизвестный статус домашней работы: " ++ (Value.bool b).pyStr),
        by simp [parse_status, h1, h2], rfl⟩
    | list xs => simp [statusMember] at h3
    | dict d => simp [statusMember] at h3
    | none =>
      exact ⟨PyError.valueError ("Неизвестный статус домашней работы: " ++ Value.none.pyStr),
        by simp [parse_status, h1, h2], rfl⟩
  · cases sv with
    | str s => simp [statusMember] at h3
    | int n => simp [statusMember] at h3
    | bool b => simp [statusMember] at h3
    | none => simp [statusMember] at h3
    | list xs =>
      simp [statusMember] at h3
      subst h3
      exact ⟨by simp [parse_status, h1, h2], rfl⟩
    | dict d =>
      simp [statusMember] at h3
      subst h3
      exact ⟨by simp [parse_status, h1, h2], rfl⟩
  · have ht := try_body_eq_parse_error st env response hw rest e h1 h2 h3
    rw [main_iteration_error st env e ht] at hm
    by_cases hl : st.last_message = some (failureMessage e)
    · rw [if_pos hl] at hm
      simp at hm
    · rw [if_neg hl] at hm
      simpa using hm

/-- C6 witness: the empty record fails with a shape error; a string
status outside the catalog fails with the unknown-status error; a
dict-valued status propagates the membership-test TypeError, a shape
error. -/
theorem C6_witness :
    (∃ e, parse_status (Value.dict []) = Except.error e ∧ e.isShapeError = true) ∧
    (∃ e, parse_status (Value.dict [("homework_name", Value.str "hw"),
        ("status", Value.str "weird")]) = Except.error e ∧ e.isUnknownStatusError = true) ∧
    (parse_status (Value.dict [("homework_name", Value.str "hw"), ("status", Value.dict [])]) =
        Except.error (PyError.typeError ("unhashable type: " ++ squote ++ "dict" ++ squote)) ∧
      (PyError.typeError ("unhashable type: " ++ squote ++ "dict"
        ++ squote)).isShapeError = true) := by
  refine ⟨?_, ?_, ?_⟩
  · exact (C6_parse_status_failures ⟨Value.int 0, Option.none⟩
      ⟨HttpOutcome.netFailure "x", SendOutcome.success⟩ []).1 rfl
  · exact (C6_parse_status_failures ⟨Value.int 0, Option.none⟩
      ⟨HttpOutcome.netFailure "x", SendOutcome.success⟩
      [("homework_name", Value.str "hw"), ("status", Value.str "weird")]).2.2.1
      (Value.str "hw") (Value.str "weird") rfl rfl rfl
  · exact (C6_parse_status_failures ⟨Value.int 0, Option.none⟩
      ⟨HttpOutcome.netFailure "x", SendOutcome.success⟩
      [("homework_name", Value.str "hw"), ("status", Value.dict [])]).2.2.2.1
      (Value.str "hw") (Value.dict [])
      (PyError.typeError ("unhashable type: " ++ squote ++ "dict" ++ squote)) rfl rfl rfl

/-- C7 counterexample: the in-range status code 201 does not return the
decoded body — the code accepts only 200 and raises for every other
code, contradicting the 200-299 range in the claim. -/
theorem C7_counterexample :
    get_api_answer (Value.int 0) (HttpOutcome.response 201 (Value.dict [])) ≠
      Except.ok (Value.dict []) ∧
    get_api_answer (Value.int 0) (HttpOutcome.response 201 (Value.dict [])) =
      Except.error (PyError.runtimeError
        ("Эндпоинт " ++ ENDPOINT ++ " вернул код 201")) := by
  exact ⟨fun h => Except.noConfusion h, rfl⟩

/-- C7 amended: get_api_answer fails with the transport RuntimeError
exactly on a network-level failure, fails with the endpoint RuntimeError
on every status code other than 200, and on status 200 returns the
decoded body untouched. -/
theorem C7_get_api_answer :
    (∀ ts err, get_api_answer ts (HttpOutcome.netFailure err) =
      Except.error (PyError.runtimeError ("Ошибка при запросе к API: " ++ err))) ∧
    (∀ ts code body, code ≠ 200 → get_api_answer ts (HttpOutcome.response code body) =
      Except.error (PyError.runtimeError
        ("Эндпоинт " ++ ENDPOINT ++ " вернул код " ++ toString code))) ∧
    (∀ ts body, get_api_answer ts (HttpOutcome.response 200 body) = Except.ok body) := by
  refine ⟨fun ts err => rfl, fun ts code body h => ?_, fun ts body => rfl⟩
  simp [get_api_answer, h]

/-- C7 witness: status 503 yields the endpoint error. -/
theorem C7_witness :
    get_api_answer (Value.int 0) (HttpOutcome.response 503 Value.none) =
      Except.error (PyError.runtimeError
        ("Эндпоинт " ++ ENDPOINT ++ " вернул код " ++ toString 503)) :=
  C7_get_api_answer.2.1 (Value.int 0) 503 Value.none (by decide)

/-- C8 counterexample: send_message returns None on every path, not a
boolean — on success its return value is None, not True, and on an
ApiException it is None, not False. -/
theorem C8_counterexample :
    (send_message "msg" SendOutcome.success).ret = Except.ok Value.none ∧
    (send_message "msg" SendOutcome.success).ret ≠ Except.ok (Value.bool true) ∧
    (send_message "msg" (SendOutcome.apiException "err")).ret ≠
      Except.ok (Value.bool false) := by
  refine ⟨rfl, fun h => ?_, fun h => ?_⟩ <;> simp [send_message] at h

/-- C8 amended: send_message always returns None and never propagates a
delivery-layer exception (ApiException or RequestException are caught);
on a failing outcome the bot call did not deliver and the failure is
logged at error level. -/
theorem C8_send_message_swallows (message : String) (outcome : SendOutcome) :
    (send_message message outcome).ret = Except.ok Value.none ∧
    (outcome ≠ SendOutcome.success →
      (send_message message outcome).delivered = false ∧
      ∃ line, (send_message message outcome).log = [(LogLevel.error, line)]) := by
  cases outcome <;> simp [send_message]

/-- C8 witness: a failing ApiException delivery is swallowed, returns
None and is not delivered. -/
theorem C8_witness :
    (send_message "m" (SendOutcome.apiException "boom")).ret = Except.ok Value.none ∧
    (send_message "m" (SendOutcome.apiException "boom")).delivered = false := by
  have h := C8_send_message_swallows "m" (SendOutcome.apiException "boom")
  exact ⟨h.1, (h.2 (by decide)).1⟩

/-- C1 counterexample: from a state whose last delivered message is the
rejected-status message, an iteration whose candidate is the approved
message and whose delivery fails (delivered is empty) still overwrites
last_message — it no longer equals the previously delivered message, so
last_message does not reflect the last successful delivery. -/
theorem C1_counterexample :
    (main_iteration ⟨Value.int 0, some sampleRejectedMessage⟩
        ⟨HttpOutcome.response 200 sampleResponse, SendOutcome.apiException "boom"⟩).delivered
      = [] ∧
    (main_iteration ⟨Value.int 0, some sampleRejectedMessage⟩
        ⟨HttpOutcome.response 200 sampleResponse, SendOutcome.apiException "boom"⟩).state.last_message
      ≠ some sampleRejectedMessage := by
  refine ⟨rfl, fun h => ?_⟩
  have h2 : sampleMessage = sampleRejectedMessage := Option.some.inj h
  exact absurd h2 (by decide)

/-- C1 amended: last_message equals exactly the last message handed to
the notifier (the last send attempt), which the code records whether or
not the delivery succeeded; a candidate message equal to it is never
handed to the notifier again; when no attempt happens it is unchanged. -/
theorem C1_last_message_tracks_attempts (st : PollState) (env : IterEnv) :
    (∀ m ∈ (main_iteration st env).sent, st.last_message ≠ some m) ∧
    ((main_iteration st env).sent = [] →
      (main_iteration st env).state.last_message = st.last_message) ∧
    (∀ m, (main_iteration st env).sent = [m] →
      (main_iteration st env).state.last_message = some m) := by
  rcases main_iteration_sent_spec st env with ⟨h1, h2, _⟩ | ⟨m1, h1, h2, h3⟩
  · refine ⟨fun m hm => ?_, fun _ => h2, fun m hm => ?_⟩
    · rw [h1] at hm
      exact absurd hm (List.not_mem_nil m)
    · rw [h1] at hm
      exact absurd hm.symm (List.cons_ne_nil m [])
  · refine ⟨fun m hm => ?_, fun hnil => ?_, fun m hm => ?_⟩
    · rw [h1] at hm
      have hm1 : m = m1 := by simpa using hm
      subst hm1
      exact h2
    · rw [hnil] at h1
      exact absurd h1.symm (List.cons_ne_nil m1 [])
    · rw [h1] at hm
      have hm1 : m1 = m := by simpa using hm
      subst hm1
      exact h3

/-- C1 witness: a failing 503 fetch from a fresh state stores the
failure message as the last attempted message. -/
theorem C1_witness :
    (main_iteration ⟨Value.int 5, Option.none⟩
        ⟨HttpOutcome.response 503 Value.none, SendOutcome.success⟩).state.last_message =
      some (failureMessage (PyError.runtimeError
        ("Эндпоинт " ++ ENDPOINT ++ " вернул код 503"))) :=
  (C1_last_message_tracks_attempts ⟨Value.int 5, Option.none⟩
      ⟨HttpOutcome.response 503 Value.none, SendOutcome.success⟩).2.2
    (failureMessage (PyError.runtimeError ("Эндпоинт " ++ ENDPOINT ++ " вернул код 503"))) rfl

/-- C2 counterexample: with a failing delivery (delivered is empty) the
iteration still advances timestamp to the current_date of the response, so
the advance is not conditioned on notification success. -/
theorem C2_counterexample :
    (main_iteration ⟨Value.int 1700000000, some sampleRejectedMessage⟩
        ⟨HttpOutcome.response 200 sampleResponse,
          SendOutcome.requestException "netdown"⟩).delivered = [] ∧
    (main_iteration ⟨Value.int 1700000000, some sampleRejectedMessage⟩
        ⟨HttpOutcome.response 200 sampleResponse,
          SendOutcome.requestException "netdown"⟩).state.timestamp = Value.int 1700000100 :=
  ⟨rfl, rfl⟩

/-- C2 amended: timestamp is advanced to response.get of current_date
(prior value when the key is absent) exactly when a notification is
attempted — a fresh candidate after a successful fetch, validate and
format — regardless of the delivery outcome; when no send is attempted,
on any caught error, and on an empty homeworks list (which performs no
notifier call) it keeps its prior value. -/
theorem C2_timestamp_rule (st : PollState) (env : IterEnv) :
    (∀ response hw rest message,
      get_api_answer st.timestamp env.fetch = Except.ok response →
      check_response response = Except.ok (hw :: rest) →
      parse_status hw = Except.ok message →
      st.last_message ≠ some message →
      (main_iteration st env).state.timestamp = response.get "current_date" st.timestamp) ∧
    ((main_iteration st env).sent = [] → (main_iteration st env).state.timestamp = st.timestamp) ∧
    (∀ e, try_body st env = Except.error e →
      (main_iteration st env).state.timestamp = st.timestamp) ∧
    (∀ response, get_api_answer st.timestamp env.fetch = Except.ok response →
      check_response response = Except.ok [] →
      (main_iteration st env).sent = [] ∧
        (main_iteration st env).state.timestamp = st.timestamp) := by
  refine ⟨fun response hw rest message h1 h2 h3 h4 => ?_, fun hnil => ?_,
          fun e he => ?_, fun response h1 h2 => ?_⟩
  · rw [main_iteration_notified st env response hw rest message h1 h2 h3 h4]
  · rcases main_iteration_sent_spec st env with ⟨_, _, h3⟩ | ⟨m1, h1, _, _⟩
    · exact h3
    · rw [hnil] at h1
      exact absurd h1.symm (List.cons_ne_nil m1 [])
  · rw [main_iteration_error st env e he]
    split <;> rfl
  · have ht := try_body_eq_noNew st env response h1 h2
    unfold main_iteration
    rw [ht]
    exact ⟨rfl, rfl⟩

/-- C2 witness: Scenario A advances timestamp to 1700000100. -/
theorem C2_witness :
    (main_iteration ⟨Value.int 1700000000, Option.none⟩
        ⟨HttpOutcome.response 200 sampleResponse,
          SendOutcome.success⟩).state.timestamp = Value.int 1700000100 :=
  ((C2_timestamp_rule ⟨Value.int 1700000000, Option.none⟩
      ⟨HttpOutcome.response 200 sampleResponse, SendOutcome.success⟩).1
    sampleResponse sampleRecord [] sampleMessage rfl rfl rfl (by decide)).trans rfl

/-- C3: any error raised by the fetch, validate or format stage is
caught once at the loop boundary (the iteration is a total function of
its inputs), converted to the failure message of line 143, routed
through the same last-message dedup, leaves timestamp unchanged, and the
loop continues with the rest of the schedule; the fixed delay between
iterations is RETRY_PERIOD = 600 seconds. -/
theorem C3_error_policy (st : PollState) (env : IterEnv) (e : PyError) (rest : List IterEnv)
    (h : get_api_answer st.timestamp env.fetch = Except.error e ∨
      (∃ response, get_api_answer st.timestamp env.fetch = Except.ok response ∧
        check_response response = Except.error e) ∨
      (∃ response hw hws, get_api_answer st.timestamp env.fetch = Except.ok response ∧
        check_response response = Except.ok (hw :: hws) ∧ parse_status hw = Except.error e)) :
    (main_iteration st env).state.timestamp = st.timestamp ∧
    (st.last_message ≠ some (failureMessage e) →
      (main_iteration st env).sent = [failureMessage e] ∧
      (main_iteration st env).state.last_message = some (failureMessage e)) ∧
    (st.last_message = some (failureMessage e) → (main_iteration st env).sent = []) ∧
    main_loop st (env :: rest) =
      ((main_loop (main_iteration st env).state rest).1,
        (main_iteration st env).sent ++ (main_loop (main_iteration st env).state rest).2) ∧
    RETRY_PERIOD = 600 := by
  have ht : try_body st env = Except.error e := by
    rcases h with h | ⟨response, h1, h2⟩ | ⟨response, hw, hws, h1, h2, h3⟩
    · exact try_body_eq_fetch_error st env e h
    · exact try_body_eq_check_error st env response e h1 h2
    · exact try_body_eq_parse_error st env response hw hws e h1 h2 h3
  have hmain := main_iteration_error st env e ht
  refine ⟨?_, fun hn => ?_, fun heq => ?_, main_loop_cons st env rest, rfl⟩
  · rw [hmain]
    split <;> rfl
  · rw [hmain, if_neg hn]
    exact ⟨rfl, rfl⟩
  · rw [hmain, if_pos heq]

/-- C3 witness: a 503 fetch from a fresh state keeps the timestamp,
sends the failure message once, and the loop goes on. -/
theorem C3_witness :
    (main_iteration ⟨Value.int 5, Option.none⟩
        ⟨HttpOutcome.response 503 Value.none, SendOutcome.success⟩).state.timestamp =
      Value.int 5 ∧
    (main_iteration ⟨Value.int 5, Option.none⟩
        ⟨HttpOutcome.response 503 Value.none, SendOutcome.success⟩).sent =
      [failureMessage (PyError.runtimeError ("Эндпоинт " ++ ENDPOINT ++ " вернул код 503"))] := by
  have h := C3_error_policy ⟨Value.int 5, Option.none⟩
    ⟨HttpOutcome.response 503 Value.none, SendOutcome.success⟩
    (PyError.runtimeError ("Эндпоинт " ++ ENDPOINT ++ " вернул код 503")) []
    (Or.inl rfl)
  exact ⟨h.1, (h.2.1 (by decide)).1⟩

/-- C4: dedup across consecutive iterations — an iteration whose
candidate equals the stored last_message hands nothing to the notifier,
and over any two consecutive iterations each message is handed to the
notifier at most once in total. -/
theorem C4_dedup_consecutive (st : PollState) (env1 env2 : IterEnv) (m : String) :
    (st.last_message = some m → m ∉ (main_iteration st env1).sent) ∧
    ((main_iteration st env1).sent ++
        (main_iteration (main_iteration st env1).state env2).sent).count m ≤ 1 := by
  rcases main_iteration_sent_spec st env1 with ⟨h1, h2, _⟩ | ⟨m1, h1, h2, h3⟩
  · constructor
    · intro _ hm
      rw [h1] at hm
      exact absurd hm (List.not_mem_nil m)
    · rcases main_iteration_sent_spec (main_iteration st env1).state env2 with
        ⟨g1, _, _⟩ | ⟨m2, g1, _, _⟩
      · rw [h1, g1]
        simp
      · rw [h1, g1]
        simpa using count_single_le_one m m2
  · constructor
    · intro hst hm
      rw [h1] at hm
      have hm1 : m = m1 := by simpa using hm
      subst hm1
      exact h2 hst
    · rcases main_iteration_sent_spec (main_iteration st env1).state env2 with
        ⟨g1, _, _⟩ | ⟨m2, g1, g2, _⟩
      · rw [h1, g1]
        simpa using count_single_le_one m m1
      · have hne : m1 ≠ m2 := by
          intro hcontra
          rw [hcontra] at h3
          exact g2 h3
        rw [h1, g1]
        exact count_pair_le_one m m1 m2 hne

/-- C4 witness: a candidate equal to the stored last message triggers no
send call. -/
theorem C4_witness :
    sampleMessage ∉ (main_iteration ⟨Value.int 0, some sampleMessage⟩
        ⟨HttpOutcome.response 200 sampleResponse, SendOutcome.success⟩).sent :=
  (C4_dedup_consecutive ⟨Value.int 0, some sampleMessage⟩
      ⟨HttpOutcome.response 200 sampleResponse, SendOutcome.success⟩
      ⟨HttpOutcome.response 200 sampleResponse, SendOutcome.success⟩ sampleMessage).1 rfl

/-- C9: whenever the success path advances the timestamp, whatever value
sits under current_date — of any type — becomes the new timestamp and is
the from_date query parameter of the next fetch. -/
theorem C9_current_date_unvalidated (st : PollState) (env : IterEnv)
    (kvs : List (String × Value)) (hw : Value) (rest : List Value) (message : String) (v : Value)
    (h1 : get_api_answer st.timestamp env.fetch = Except.ok (Value.dict kvs))
    (h2 : check_response (Value.dict kvs) = Except.ok (hw :: rest))
    (h3 : parse_status hw = Except.ok message)
    (h4 : st.last_message ≠ some message)
    (h5 : lookup kvs "current_date" = some v) :
    (main_iteration st env).state.timestamp = v ∧
    apiRequestParams (main_iteration st env).state.timestamp = [("from_date", v)] := by
  rw [main_iteration_notified st env (Value.dict kvs) hw rest message h1 h2 h3 h4]
  constructor
  · simp [Value.get, h5]
  · simp [apiRequestParams, Value.get, h5]

/-- C9 witness: a string-valued current_date is stored into timestamp
and reused as from_date unchanged. -/
theorem C9_witness :
    (main_iteration ⟨Value.int 7, Option.none⟩
        ⟨HttpOutcome.response 200 oddResponse, SendOutcome.success⟩).state.timestamp =
      Value.str "not-a-number" ∧
    apiRequestParams (main_iteration ⟨Value.int 7, Option.none⟩
        ⟨HttpOutcome.response 200 oddResponse, SendOutcome.success⟩).state.timestamp =
      [("from_date", Value.str "not-a-number")] :=
  C9_current_date_unvalidated ⟨Value.int 7, Option.none⟩
    ⟨HttpOutcome.response 200 oddResponse, SendOutcome.success⟩
    [("homeworks", Value.list [sampleRecord]), ("current_date", Value.str "not-a-number")]
    sampleRecord [] sampleMessage (Value.str "not-a-number")
    rfl rfl rfl (by decide) rfl

/-- C10: check_tokens returns false exactly when at least one of the
three credentials is falsy (unset or empty string), and then main exits
before the loop; when all are truthy, main enters the loop; the empty
string is treated exactly like an unset variable. -/
theorem C10_check_tokens (env : TokenEnv) :
    (check_tokens env = false ↔
      (truthy env.PRACTICUM_TOKEN = false ∨ truthy env.TELEGRAM_TOKEN = false ∨
        truthy env.TELEGRAM_CHAT_ID = false)) ∧
    (check_tokens env = false →
      main_startup env = StartupResult.exited "Отсутствуют обязательные переменные окружения") ∧
    (check_tokens env = true → main_startup env = StartupResult.entersLoop) ∧
    truthy (some "") = truthy Option.none := by
  obtain ⟨p, t, c⟩ := env
  have hempty : truthy (some "") = truthy Option.none := by decide
  cases hp : truthy p <;> cases ht : truthy t <;> cases hc : truthy c <;>
    simp [check_tokens, main_startup, hp, ht, hc, hempty]

/-- C10 witness: an empty PRACTICUM_TOKEN is fatal at startup. -/
theorem C10_witness :
    check_tokens ⟨some "", some "tok", some "42"⟩ = false ∧
    main_startup ⟨some "", some "tok", some "42"⟩ =
      StartupResult.exited "Отсутствуют обязательные переменные окружения" := by
  have h := C10_check_tokens ⟨some "", some "tok", some "42"⟩
  have hf : check_tokens ⟨some "", some "tok", some "42"⟩ = false :=
    h.1.mpr (Or.inl (by decide))
  exact ⟨hf, h.2.1 hf⟩

end HomeworkBot
